import Mathlib

/-!
Verification of the Tsinghua SSVEP dataset loaders (`brainda/datasets/tsinghua.py`):
the `Wang2016` and `BETA` dataset classes.  The numeric pipeline of
`_get_single_subject_data` (scaling, stimulus-channel injection, axis permutation,
per-block run extraction), the channel-layout construction, the `data_path`
resolvers with their subject validation and extraction guard, and the static
frequency/phase/event tables are embedded shallowly: 4-D arrays become index
functions paired with explicit dimensions, voltages become rationals, and the
filesystem becomes an explicit list of file names.
-/

namespace Tsinghua

/-- A 4-D numeric array: four dimensions and a total index function
(mirroring a numpy `ndarray` of `ndim == 4`). -/
structure Tensor4 (α : Type) where
  d0 : Nat
  d1 : Nat
  d2 : Nat
  d3 : Nat
  val : Nat → Nat → Nat → Nat → α

/-- A 2-D numeric array (the data matrix of a run). -/
structure Mat (α : Type) where
  rows : Nat
  cols : Nat
  val : Nat → Nat → α

/-- Source expression `raw_mat["data"] * 1e-6`: elementwise scaling of the on-disk tensor by 1e-6. -/
def scaleMicro (a : Tensor4 ℚ) : Tensor4 ℚ :=
  ⟨a.d0, a.d1, a.d2, a.d3, fun i j k l => a.val i j k l * (1e-6 : ℚ)⟩

/-- Source expression `np.concatenate((epoch_data, stim), axis=0)`: stack `b` below `a` along axis 0. -/
def concatChannel (a b : Tensor4 ℚ) : Tensor4 ℚ :=
  ⟨a.d0 + b.d0, a.d1, a.d2, a.d3,
   fun i j k l => if i < a.d0 then a.val i j k l else b.val (i - a.d0) j k l⟩

/-- Source expression `np.transpose(epoch_data, (0, 3, 2, 1))`: reverse the order of the last three axes. -/
def transpose0321 (a : Tensor4 α) : Tensor4 α :=
  ⟨a.d0, a.d3, a.d2, a.d1, fun i j k l => a.val i l k j⟩

/-- Wang2016 stimulus channel: `stim = np.zeros((1, *epoch_data.shape[1:]))` and
`stim[0, 125] = np.tile(np.arange(1, 41)[:, np.newaxis], (1, epoch_data.shape[-1]))`,
i.e. entry `(0, t, c, b)` is `c + 1` when `t = 125` (for the 40 values of
`np.arange(1, 41)`, broadcast over blocks) and `0` elsewhere. -/
def stimWang (a : Tensor4 ℚ) : Tensor4 ℚ :=
  ⟨1, a.d1, a.d2, a.d3,
   fun _ t c _ => if t = 125 ∧ c < 40 then (c : ℚ) + 1 else 0⟩

/-- BETA stimulus channel: `stim = np.zeros((1, *epoch_data.shape[1:]))` and
`stim[0, 125] = np.tile(np.arange(1, 41), (epoch_data.shape[-2], 1))`,
i.e. entry `(0, t, b, c)` is `c + 1` when `t = 125` (the row `np.arange(1, 41)`
tiled over blocks) and `0` elsewhere. -/
def stimBETA (a : Tensor4 ℚ) : Tensor4 ℚ :=
  ⟨1, a.d1, a.d2, a.d3,
   fun _ t _ c => if t = 125 ∧ c < 40 then (c : ℚ) + 1 else 0⟩

namespace Wang2016

/-- The pre-permutation tensor of `Wang2016._get_single_subject_data`:
scaled data with the stimulus channel appended along axis 0. -/
def fullTensor (raw : Tensor4 ℚ) : Tensor4 ℚ :=
  concatChannel (scaleMicro raw) (stimWang raw)

/-- Source line `data = np.transpose(epoch_data, (0, 3, 2, 1))` applied to the concatenated tensor. -/
def loadTensor (raw : Tensor4 ℚ) : Tensor4 ℚ :=
  transpose0321 (fullTensor raw)

/-- Source expression `np.reshape(data[:, i, ...], (data.shape[0], -1))`: run `i` of Wang2016,
the slice at index `i` of axis 1 flattened row-major over the remaining two axes. -/
def runMat (data : Tensor4 ℚ) (i : Nat) : Mat ℚ :=
  ⟨data.d0, data.d2 * data.d3, fun ch k => data.val ch i (k / data.d3) (k % data.d3)⟩

end Wang2016

namespace BETA

/-- The pre-permutation tensor of `BETA._get_single_subject_data`:
scaled data with the stimulus channel appended along axis 0. -/
def fullTensor (raw : Tensor4 ℚ) : Tensor4 ℚ :=
  concatChannel (scaleMicro raw) (stimBETA raw)

/-- Source line `data = np.transpose(epoch_data, (0, 3, 2, 1))` applied to the concatenated tensor. -/
def loadTensor (raw : Tensor4 ℚ) : Tensor4 ℚ :=
  transpose0321 (fullTensor raw)

/-- Source expression `np.reshape(data[..., i, :], (data.shape[0], -1))`: run `i` of BETA,
the slice at index `i` of axis 2 flattened row-major over axes 1 and 3. -/
def runMat (data : Tensor4 ℚ) (i : Nat) : Mat ℚ :=
  ⟨data.d0, data.d1 * data.d3, fun ch k => data.val ch (k / data.d3) i (k % data.d3)⟩

end BETA

/-- Semantics of `np.arange(a, b, step)` over exact rationals: `⌈(b - a) / step⌉` equally
spaced values starting at `a`. -/
def npArange (a b step : ℚ) : List ℚ :=
  (List.range (⌈(b - a) / step⌉).toNat).map fun k => a + step * k

/-- Semantics of `.reshape((r, c)).T.reshape((-1))` on a flat list of length `r * c`:
the flat entry at transposed position `i` is the original entry at
`(i % r) * c + i / r`. -/
def reshapeTFlat (r c : Nat) (l : List ℚ) : List ℚ :=
  (List.range (r * c)).map fun i => l.getD ((i % r) * c + i / r) 0

/-- Semantics of `np.roll(l, -3)`: rotate the list left by three positions. -/
def npRollNeg3 (l : List ℚ) : List ℚ :=
  l.drop 3 ++ l.take 3

/-- Elementwise `% 2` on a list of rationals (`np.mod` semantics: nonnegative
remainder for a positive modulus). -/
def listMod2 (l : List ℚ) : List ℚ :=
  l.map fun q => q - 2 * ⌊q / 2⌋

namespace Wang2016

/-- Source line `_EVENTS = \x7bstr(i): (i, (0, 5)) for i in range(1, 41)\x7d` as an ordered
association list. -/
def EVENTS : List (String × Nat × (Nat × Nat)) :=
  (List.range' 1 40).map fun i => (toString i, i, (0, 5))

/-- Source line `_FREQS = np.arange(8, 16, 0.2).reshape((8, 5)).T.reshape((-1))`. -/
def FREQS : List ℚ :=
  reshapeTFlat 8 5 (npArange 8 16 (0.2 : ℚ))

/-- Source line `_PHASES = np.arange(0, 0.5*40, 0.5).reshape((8, 5)).T.reshape((-1)) % 2`. -/
def PHASES : List ℚ :=
  listMod2 (reshapeTFlat 8 5 (npArange 0 (0.5 * 40) (0.5 : ℚ)))

/-- Source line `subjects=list(range(1, 36))`. -/
def subjects : List Nat := List.range' 1 35

end Wang2016

namespace BETA

/-- Source line `_EVENTS = \x7bstr(i): (i, (0, 2)) for i in range(1, 41)\x7d` as an ordered
association list. -/
def EVENTS : List (String × Nat × (Nat × Nat)) :=
  (List.range' 1 40).map fun i => (toString i, i, (0, 2))

/-- Source line `_FREQS = np.roll(np.arange(0, 0.2*40, 0.2) + 8, -3)`. -/
def FREQS : List ℚ :=
  npRollNeg3 ((npArange 0 (0.2 * 40) (0.2 : ℚ)).map fun q => q + 8)

/-- Source line `_PHASES = np.arange(0, 0.5*40, 0.5) % 2`. -/
def PHASES : List ℚ :=
  listMod2 (npArange 0 (0.5 * 40) (0.5 : ℚ))

/-- Source line `subjects=list(range(1, 71))`. -/
def subjects : List Nat := List.range' 1 70

end BETA

/-- The 60-entry `_CHANNELS` list (identical in `Wang2016` and `BETA`),
already upper-case as in the source. -/
def CHANNELS : List String :=
  ["FP1", "FPZ", "FP2", "AF3", "AF4", "F7", "F5", "F3", "F1",
   "FZ", "F2", "F4", "F6", "F8", "FT7", "FC5", "FC3", "FC1",
   "FCZ", "FC2", "FC4", "FC6", "FT8", "T7", "C5", "C3", "C1",
   "CZ", "C2", "C4", "C6", "T8", "TP7", "CP5", "CP3", "CP1",
   "CPZ", "CP2", "CP4", "CP6", "TP8", "P7", "P5", "P3", "P1",
   "PZ", "P2", "P4", "P6", "P8", "PO7", "PO5", "PO3", "POZ",
   "PO4", "PO6", "PO8", "O1", "OZ", "O2"]

/-- Channel-name construction of `_get_single_subject_data` (identical in both
datasets): `ch_names.insert(32, "M1")`, `ch_names.insert(42, "M2")`,
`ch_names.insert(59, "CB1")`, then `ch_names + ["CB2", "STI 014"]`. -/
def chNames : List String :=
  (((CHANNELS.insertIdx 32 "M1").insertIdx 42 "M2").insertIdx 59 "CB1")
    ++ ["CB2", "STI 014"]

/-- Channel-type construction of `_get_single_subject_data` (identical in both
datasets): `ch_types = ["eeg"]*65`, `ch_types[59] = "misc"`,
`ch_types[63] = "misc"`, `ch_types[-1] = "stim"` (index 64 of a 65-element list). -/
def chTypes : List String :=
  (((List.replicate 65 "eeg").set 59 "misc").set 63 "misc").set 64 "stim"

/-- Result of a call to the source method `data_path`: the returned destination paths (the inner
list of the `[[...]]` structure), the resulting set of files in the cache
directory, and whether an archive extraction was performed. -/
structure DPOut where
  dests : List String
  fs : List String
  extracted : Bool
deriving DecidableEq

namespace Wang2016

/-- Wang2016 archive file name for a subject: `"S\x7b:d\x7d.mat.7z".format(subject)`
(the base name of the URL, as cached by the download layer). -/
def archiveFile (s : Nat) : String := "S" ++ toString s ++ ".mat.7z"

/-- Source expression `file_dest[:-3]`: the archive name with the trailing `.7z` stripped. -/
def matFile (s : Nat) : String := "S" ++ toString s ++ ".mat"

/-- Modelled from the spec: the contents extracted from a Wang2016 per-subject
7z archive — "one `.7z` per subject containing one `.mat` file"; the extraction
code itself (`py7zr.SevenZipFile(...).extractall`) is an external collaborator
not present in the repository. -/
def extractedFiles (s : Nat) : List String := [matFile s]

/-- The method `Wang2016.data_path` over the filesystem model `fs` (the set of files in
the cache directory): raise a ValueError when the subject is not in
`subjects`; otherwise resolve the archive, extract it only when the
decompressed `.mat` file is absent, and return `[[file_dest[:-3]]]`.  The
download resolver `mne_data_path` is an external cache-aware collaborator and
is modelled as pure path resolution. -/
def dataPath (fs : List String) (s : Nat) : Except String DPOut :=
  if s ∈ subjects then
    if matFile s ∈ fs then
      .ok ⟨[matFile s], fs, false⟩
    else
      .ok ⟨[matFile s], fs ++ extractedFiles s, true⟩
  else
    .error "Invalid subject id"

/-- The method `Wang2016._get_single_subject_data`, reduced to its observable key
structure: validate the subject through `data_path`, then return the session
keys and run keys (`runs["run_\x7b:d\x7d".format(i)]` for `i in
range(data.shape[1])`, wrapped in `\x7b"session_0": runs\x7d`). -/
def loadSubjectKeys (fs : List String) (raw : Tensor4 ℚ) (s : Nat) :
    Except String (List String × List String) :=
  (dataPath fs s).map fun _ =>
    (["session_0"],
     (List.range (loadTensor raw).d1).map fun i => "run_" ++ toString i)

end Wang2016

namespace BETA

/-- BETA decade-archive name selected by the if/elif chain of `data_path`. -/
def archiveFile (s : Nat) : String :=
  if s < 11 then "S1-S10.mat.zip"
  else if s < 21 then "S11-S20.mat.zip"
  else if s < 31 then "S21-S30.mat.zip"
  else if s < 41 then "S31-S40.mat.zip"
  else if s < 51 then "S41-S50.mat.zip"
  else if s < 61 then "S51-S60.mat.zip"
  else "S61-S70.mat.zip"

/-- Source expression `"S\x7b:d\x7d.mat".format(subject)` inside the cache directory of the archive. -/
def matFile (s : Nat) : String := "S" ++ toString s ++ ".mat"

/-- First subject of the decade covering `s` (for valid `s`). -/
def decadeLo (s : Nat) : Nat :=
  if s < 11 then 1
  else if s < 21 then 11
  else if s < 31 then 21
  else if s < 41 then 31
  else if s < 51 then 41
  else if s < 61 then 51
  else 61

/-- Modelled from the spec: the contents extracted from a BETA decade zip
archive — "one `.zip` per 10-subject decade containing ten `.mat` files";
the extraction code itself (`zipfile.ZipFile(...).extractall`) is an external
collaborator not present in the repository. -/
def extractedFiles (s : Nat) : List String :=
  (List.range' (decadeLo s) 10).map matFile

/-- The method `BETA.data_path` over the filesystem model `fs`: raise a ValueError when
the subject is not in `subjects`; otherwise resolve the decade archive,
extract it only when `S{subject}.mat` is absent from the cache directory, and
return `[[os.path.join(parent_dir, "S\x7b:d\x7d.mat".format(subject))]]`. -/
def dataPath (fs : List String) (s : Nat) : Except String DPOut :=
  if s ∈ subjects then
    if matFile s ∈ fs then
      .ok ⟨[matFile s], fs, false⟩
    else
      .ok ⟨[matFile s], fs ++ extractedFiles s, true⟩
  else
    .error "Invalid subject id"

/-- The method `BETA._get_single_subject_data`, reduced to its observable key structure:
validate the subject through `data_path`, then return the session keys and
run keys (`runs["run_\x7b:d\x7d".format(i)]` for `i in range(data.shape[-2])`,
wrapped in `\x7b"session_0": runs\x7d`). -/
def loadSubjectKeys (fs : List String) (raw : Tensor4 ℚ) (s : Nat) :
    Except String (List String × List String) :=
  (dataPath fs s).map fun _ =>
    (["session_0"],
     (List.range (loadTensor raw).d2).map fun i => "run_" ++ toString i)

end BETA

/-- What the spec asserts the BETA axis permutation does: take the on-disk
order (channel, time, block, class) to the canonical order
(channel, block, class, time), i.e. result entry `(ch, b, c, t)` is source
entry `(ch, t, b, c)`.  Written from the words of the spec, for comparison with
`transpose0321`, the permutation the source actually applies. -/
def specBetaCanonicalPermute (a : Tensor4 α) : Tensor4 α :=
  ⟨a.d0, a.d2, a.d3, a.d1, fun i j k l => a.val i l j k⟩

end Tsinghua

namespace Tsinghua

/-- A concrete Wang2016-shaped on-disk tensor (64, 1500, 40, 6) with
distinguishable entries, used to instantiate the theorems. -/
def wangSample : Tensor4 ℚ :=
  ⟨64, 1500, 40, 6, fun i j k l => (i : ℚ) + 2 * j + 3 * k + 5 * l⟩

/-- A concrete BETA-shaped on-disk tensor (64, 750, 4, 40) with
distinguishable entries, used to instantiate the theorems. -/
def betaSample : Tensor4 ℚ :=
  ⟨64, 750, 4, 40, fun i j k l => (i : ℚ) + 2 * j + 3 * k + 5 * l⟩

/-- C1: in both loaders, the appended stimulus channel (row `raw.d0` of the
concatenated tensor) is zero everywhere except at time-index 125, where each
(class, block) cell holds the 1-based class index, independently of the block. -/
theorem stim_channel_spec (w bta : Tensor4 ℚ) (t c b : Nat) (hc : c < 40) :
    ((Wang2016.fullTensor w).val w.d0 t c b = if t = 125 then (c : ℚ) + 1 else 0)
    ∧ ((BETA.fullTensor bta).val bta.d0 t b c = if t = 125 then (c : ℚ) + 1 else 0) := by
  constructor <;>
    simp [Wang2016.fullTensor, BETA.fullTensor, concatChannel, scaleMicro,
      stimWang, stimBETA, hc]

/-- Witness for C1 at time-index 125 and class index 7 of the sample tensors. -/
theorem stim_channel_spec_witness :
    (7 < 40)
    ∧ ((Wang2016.fullTensor wangSample).val wangSample.d0 125 7 3 =
        if 125 = 125 then (7 : ℚ) + 1 else 0)
    ∧ ((BETA.fullTensor betaSample).val betaSample.d0 125 3 7 =
        if 125 = 125 then (7 : ℚ) + 1 else 0) :=
  ⟨by decide, stim_channel_spec wangSample betaSample 125 7 3 (by decide)⟩

end Tsinghua

namespace Tsinghua

/-- C2 counterexample: on the concrete BETA-shaped tensor, the permutation the
loader applies (`np.transpose(..., (0, 3, 2, 1))`) does not produce the
canonical (channel, block, class, time) layout the spec asserts: the block
axis lands in position 2, not position 1, so both a dimension and an entry
differ. -/
theorem axis_permutation_counterexample :
    (transpose0321 (BETA.fullTensor betaSample)).d1 ≠
        (specBetaCanonicalPermute (BETA.fullTensor betaSample)).d1
    ∧ (transpose0321 (BETA.fullTensor betaSample)).val 0 1 2 3 ≠
        (specBetaCanonicalPermute (BETA.fullTensor betaSample)).val 0 1 2 3 := by
  refine ⟨by decide, ?_⟩
  simp [transpose0321, specBetaCanonicalPermute, BETA.fullTensor, concatChannel,
    scaleMicro, stimBETA, betaSample]
  norm_num

/-- C2 (amended): both loaders permute the concatenated tensor with
`np.transpose(..., (0, 3, 2, 1))`; for Wang2016 (on-disk order channel, time,
class, block) this yields (channel, block, class, time), while for BETA
(on-disk order channel, time, block, class) it yields
(channel, class, block, time) — the block and class axes end up swapped
relative to Wang2016, and the BETA run loop compensates by iterating axis 2. -/
theorem axis_permutation_spec (w bta : Tensor4 ℚ) :
    ((Wang2016.loadTensor w).d0 = (Wang2016.fullTensor w).d0
      ∧ (Wang2016.loadTensor w).d1 = w.d3
      ∧ (Wang2016.loadTensor w).d2 = w.d2
      ∧ (Wang2016.loadTensor w).d3 = w.d1
      ∧ ∀ ch b c t, (Wang2016.loadTensor w).val ch b c t =
          (Wang2016.fullTensor w).val ch t c b)
    ∧ ((BETA.loadTensor bta).d0 = (BETA.fullTensor bta).d0
      ∧ (BETA.loadTensor bta).d1 = bta.d3
      ∧ (BETA.loadTensor bta).d2 = bta.d2
      ∧ (BETA.loadTensor bta).d3 = bta.d1
      ∧ ∀ ch c b t, (BETA.loadTensor bta).val ch c b t =
          (BETA.fullTensor bta).val ch t b c) := by
  refine ⟨⟨rfl, rfl, rfl, rfl, fun ch b c t => rfl⟩,
    ⟨rfl, rfl, rfl, rfl, fun ch c b t => rfl⟩⟩

/-- C3 counterexample: the channel-name list built by the loaders has 65
entries, not 69, because the shared `_CHANNELS` table holds 60 EEG names,
not 64. -/
theorem channel_layout_counterexample :
    ¬(chNames.length = 69 ∧ CHANNELS.length = 64) := by
  decide

/-- C3 (amended): the channel layout built by both loaders has 65 names —
the 60 `_CHANNELS` EEG names with "M1" inserted at index 32, "M2" at 42,
"CB1" at 59, then "CB2" and the stimulus channel "STI 014" appended at
indices 63 and 64 — and the 65-entry channel-types array marks exactly three
non-EEG entries: "misc" at positions 59 and 63 and "stim" at the last
position (64), all other entries being "eeg". -/
theorem channel_layout_spec :
    chNames.length = 65
    ∧ CHANNELS.length = 60
    ∧ chNames.getD 32 "" = "M1"
    ∧ chNames.getD 42 "" = "M2"
    ∧ chNames.getD 59 "" = "CB1"
    ∧ chNames.getD 63 "" = "CB2"
    ∧ chNames.getD 64 "" = "STI 014"
    ∧ chNames.filter (fun n => decide (n ∈ CHANNELS)) = CHANNELS
    ∧ chTypes.length = 65
    ∧ chTypes.getD 59 "" = "misc"
    ∧ chTypes.getD 63 "" = "misc"
    ∧ chTypes.getD 64 "" = "stim"
    ∧ (chTypes.filter (fun ty => decide (ty ≠ "eeg"))).length = 3
    ∧ chTypes.count "eeg" = 62 := by
  decide

/-- C5: every voltage sample of the permuted tensor returned by either loader
(a channel index below the on-disk channel count) equals the corresponding
raw on-disk sample multiplied by 1e-6, with the factor applied exactly once. -/
theorem voltage_scale_spec (w bta : Tensor4 ℚ) (ch j k t : Nat)
    (hw : ch < w.d0) (hb : ch < bta.d0) :
    (Wang2016.loadTensor w).val ch j k t = w.val ch t k j * (1e-6 : ℚ)
    ∧ (BETA.loadTensor bta).val ch j k t = bta.val ch t k j * (1e-6 : ℚ) := by
  constructor <;>
    simp [Wang2016.loadTensor, BETA.loadTensor, Wang2016.fullTensor,
      BETA.fullTensor, transpose0321, concatChannel, scaleMicro, hw, hb]

/-- Witness for C5 at channel 2 of the sample tensors. -/
theorem voltage_scale_spec_witness :
    (2 < wangSample.d0 ∧ 2 < betaSample.d0)
    ∧ ((Wang2016.loadTensor wangSample).val 2 3 4 5 =
          wangSample.val 2 5 4 3 * (1e-6 : ℚ)
      ∧ (BETA.loadTensor betaSample).val 2 3 4 5 =
          betaSample.val 2 5 4 3 * (1e-6 : ℚ)) :=
  ⟨⟨by decide, by decide⟩,
   voltage_scale_spec wangSample betaSample 2 3 4 5 (by decide) (by decide)⟩

end Tsinghua

namespace Tsinghua

/-- C4: for any Wang2016 subject whose on-disk tensor has shape
(64, 1500, 40, 6), the loader yields exactly one session with exactly 6 runs
(one per block), each run a 2-D array of shape (65, 1500 * 40) whose entry at
column `c * 1500 + t` is the concatenated-tensor sample of class `c` at time
`t` in block `i` — the 40 class segments concatenated along time in on-disk
class order. -/
theorem wang_subject_runs_spec (raw : Tensor4 ℚ) (fs : List String)
    (s i c t ch : Nat) (hs : s ∈ Wang2016.subjects)
    (h0 : raw.d0 = 64) (h1 : raw.d1 = 1500) (h2 : raw.d2 = 40) (h3 : raw.d3 = 6)
    (hi : i < 6) (hc : c < 40) (ht : t < 1500) :
    Wang2016.loadSubjectKeys fs raw s =
        .ok (["session_0"], (List.range 6).map fun j => "run_" ++ toString j)
    ∧ (Wang2016.runMat (Wang2016.loadTensor raw) i).rows = 65
    ∧ (Wang2016.runMat (Wang2016.loadTensor raw) i).cols = 1500 * 40
    ∧ (Wang2016.runMat (Wang2016.loadTensor raw) i).val ch (c * 1500 + t) =
        (Wang2016.fullTensor raw).val ch t c i := by
  have e1 : (c * 1500 + t) / 1500 = c := by omega
  have e2 : (c * 1500 + t) % 1500 = t := by omega
  have hd : (Wang2016.fullTensor raw).d1 = 1500 := by
    simp [Wang2016.fullTensor, concatChannel, scaleMicro, h1]
  refine ⟨?_, ?_, ?_, ?_⟩
  · simp only [Wang2016.loadSubjectKeys, Wang2016.dataPath, if_pos hs,
      Wang2016.loadTensor, transpose0321, Wang2016.fullTensor, concatChannel,
      scaleMicro, stimWang, h3]
    split <;> rfl
  · simp [Wang2016.runMat, Wang2016.loadTensor, transpose0321,
      Wang2016.fullTensor, concatChannel, scaleMicro, stimWang, h0]
  · have h : (Wang2016.runMat (Wang2016.loadTensor raw) i).cols =
        raw.d2 * raw.d1 := rfl
    rw [h, h1, h2]
  · simp only [Wang2016.runMat, Wang2016.loadTensor, transpose0321, hd, e1, e2]

/-- Witness for C4: subject 1 with the concrete sample tensor, run 0,
class 39, time 1499, channel 64 (the stimulus row). -/
theorem wang_subject_runs_spec_witness :
    (1 ∈ Wang2016.subjects ∧ wangSample.d0 = 64 ∧ wangSample.d1 = 1500
      ∧ wangSample.d2 = 40 ∧ wangSample.d3 = 6 ∧ 0 < 6 ∧ 39 < 40 ∧ 1499 < 1500)
    ∧ (Wang2016.loadSubjectKeys [] wangSample 1 =
        .ok (["session_0"], (List.range 6).map fun j => "run_" ++ toString j)
      ∧ (Wang2016.runMat (Wang2016.loadTensor wangSample) 0).rows = 65
      ∧ (Wang2016.runMat (Wang2016.loadTensor wangSample) 0).cols = 1500 * 40
      ∧ (Wang2016.runMat (Wang2016.loadTensor wangSample) 0).val 64
            (39 * 1500 + 1499) =
          (Wang2016.fullTensor wangSample).val 64 1499 39 0) :=
  ⟨⟨by decide, rfl, rfl, rfl, rfl, by decide, by decide, by decide⟩,
   wang_subject_runs_spec wangSample [] 1 0 39 1499 64 (by decide)
     rfl rfl rfl rfl (by decide) (by decide) (by decide)⟩

/-- C6: for either dataset, an out-of-range subject id makes both the path
resolver and the subject loader fail with the invalid-argument error (and no
filesystem effect is produced, since no result is); an in-range subject id
never produces that error. -/
theorem invalid_subject_spec (s : Nat) (fs : List String) (w bta : Tensor4 ℚ) :
    (s ∉ Wang2016.subjects ↔ Wang2016.dataPath fs s = .error "Invalid subject id")
    ∧ (s ∉ Wang2016.subjects ↔
        Wang2016.loadSubjectKeys fs w s = .error "Invalid subject id")
    ∧ (s ∉ BETA.subjects ↔ BETA.dataPath fs s = .error "Invalid subject id")
    ∧ (s ∉ BETA.subjects ↔
        BETA.loadSubjectKeys fs bta s = .error "Invalid subject id") := by
  have hw : s ∈ Wang2016.subjects → ∃ out, Wang2016.dataPath fs s = .ok out := by
    intro h
    simp only [Wang2016.dataPath, if_pos h]
    split
    · exact ⟨_, rfl⟩
    · exact ⟨_, rfl⟩
  have hbb : s ∈ BETA.subjects → ∃ out, BETA.dataPath fs s = .ok out := by
    intro h
    simp only [BETA.dataPath, if_pos h]
    split
    · exact ⟨_, rfl⟩
    · exact ⟨_, rfl⟩
  refine ⟨⟨fun h => by simp [Wang2016.dataPath, h], fun h hmem => ?_⟩,
    ⟨fun h => by
      simp [Wang2016.loadSubjectKeys, Wang2016.dataPath, h, Except.map],
      fun h hmem => ?_⟩,
    ⟨fun h => by simp [BETA.dataPath, h], fun h hmem => ?_⟩,
    ⟨fun h => by simp [BETA.loadSubjectKeys, BETA.dataPath, h, Except.map],
      fun h hmem => ?_⟩⟩
  · obtain ⟨out, hout⟩ := hw hmem
    rw [hout] at h
    exact Except.noConfusion h
  · obtain ⟨out, hout⟩ := hw hmem
    rw [Wang2016.loadSubjectKeys, hout] at h
    simp only [Except.map] at h
    exact Except.noConfusion h
  · obtain ⟨out, hout⟩ := hbb hmem
    rw [hout] at h
    exact Except.noConfusion h
  · obtain ⟨out, hout⟩ := hbb hmem
    rw [BETA.loadSubjectKeys, hout] at h
    simp only [Except.map] at h
    exact Except.noConfusion h

/-- Witness for C6 at subject 50 (invalid for Wang2016, valid for BETA). -/
theorem invalid_subject_spec_witness :
    (50 ∉ Wang2016.subjects ↔
        Wang2016.dataPath [] 50 = .error "Invalid subject id")
    ∧ (50 ∉ Wang2016.subjects ↔
        Wang2016.loadSubjectKeys [] wangSample 50 = .error "Invalid subject id")
    ∧ (50 ∉ BETA.subjects ↔ BETA.dataPath [] 50 = .error "Invalid subject id")
    ∧ (50 ∉ BETA.subjects ↔
        BETA.loadSubjectKeys [] betaSample 50 = .error "Invalid subject id") :=
  invalid_subject_spec 50 [] wangSample betaSample

end Tsinghua

namespace Tsinghua

/-- Helper: every valid BETA subject lies in the decade its archive covers,
and its own .mat file is among the files that decade archive extracts. -/
theorem beta_decade_bounds :
    ∀ s ∈ BETA.subjects,
      10 * ((s - 1) / 10) + 1 ≤ s ∧ s ≤ 10 * ((s - 1) / 10) + 10
      ∧ BETA.matFile s ∈ BETA.extractedFiles s := by
  decide

/-- C7: for every valid BETA subject the path resolver selects the decade
archive covering it — the archive name is built from the decade bounds
10⌊(s-1)/10⌋+1 and 10⌊(s-1)/10⌋+10, which enclose s — in particular subject 5
selects S1-S10 and subject 65 selects S61-S70 — and the returned destination
is the subject-specific S{s}.mat file in the cache directory of that archive. -/
theorem beta_decade_spec (s : Nat) (fs : List String) (hs : s ∈ BETA.subjects) :
    BETA.archiveFile s =
        "S" ++ toString (10 * ((s - 1) / 10) + 1) ++ "-S"
          ++ toString (10 * ((s - 1) / 10) + 10) ++ ".mat.zip"
    ∧ 10 * ((s - 1) / 10) + 1 ≤ s
    ∧ s ≤ 10 * ((s - 1) / 10) + 10
    ∧ BETA.archiveFile 5 = "S1-S10.mat.zip"
    ∧ BETA.archiveFile 65 = "S61-S70.mat.zip"
    ∧ (BETA.dataPath fs s).map DPOut.dests =
        .ok ["S" ++ toString s ++ ".mat"] := by
  have key : ∀ x ∈ BETA.subjects,
      BETA.archiveFile x =
        "S" ++ toString (10 * ((x - 1) / 10) + 1) ++ "-S"
          ++ toString (10 * ((x - 1) / 10) + 10) ++ ".mat.zip" := by
    decide
  have bounds := beta_decade_bounds s hs
  refine ⟨key s hs, bounds.1, bounds.2.1, by decide, by decide, ?_⟩
  simp only [BETA.dataPath, if_pos hs]
  split <;> rfl

/-- Witness for C7 at subject 65. -/
theorem beta_decade_spec_witness :
    (65 ∈ BETA.subjects)
    ∧ (BETA.archiveFile 65 =
        "S" ++ toString (10 * ((65 - 1) / 10) + 1) ++ "-S"
          ++ toString (10 * ((65 - 1) / 10) + 10) ++ ".mat.zip"
      ∧ 10 * ((65 - 1) / 10) + 1 ≤ 65
      ∧ 65 ≤ 10 * ((65 - 1) / 10) + 10
      ∧ BETA.archiveFile 5 = "S1-S10.mat.zip"
      ∧ BETA.archiveFile 65 = "S61-S70.mat.zip"
      ∧ (BETA.dataPath [] 65).map DPOut.dests =
          .ok ["S" ++ toString 65 ++ ".mat"]) :=
  ⟨by decide, beta_decade_spec 65 [] (by decide)⟩

/-- C8: for each dataset the frequency table and the phase table have equal
length, and that length is the number of event classes, 40. -/
theorem freq_phase_length_spec :
    Wang2016.FREQS.length = Wang2016.PHASES.length
    ∧ Wang2016.FREQS.length = Wang2016.EVENTS.length
    ∧ Wang2016.EVENTS.length = 40
    ∧ BETA.FREQS.length = BETA.PHASES.length
    ∧ BETA.FREQS.length = BETA.EVENTS.length
    ∧ BETA.EVENTS.length = 40 := by
  have c2 : (⌈((0.5 * 40 - 0) / 0.5 : ℚ)⌉) = 40 := by norm_num
  have c3 : (⌈((0.2 * 40 - 0) / 0.2 : ℚ)⌉) = 40 := by norm_num
  have a2 : (npArange 0 (0.5 * 40) (0.5 : ℚ)).length = 40 := by
    simp only [npArange, List.length_map, List.length_range, c3, c2]
    rfl
  have a3 : (npArange 0 (0.2 * 40) (0.2 : ℚ)).length = 40 := by
    simp only [npArange, List.length_map, List.length_range, c3]
    rfl
  have hm : ((npArange 0 (0.2 * 40) (0.2 : ℚ)).map (fun q => q + 8)).length = 40 := by
    rw [List.length_map, a3]
  have b1 : BETA.FREQS.length = 40 := by
    simp only [BETA.FREQS, npRollNeg3, List.length_append, List.length_drop,
      List.length_take, hm]
    rfl
  have b2 : BETA.PHASES.length = 40 := by
    simp only [BETA.PHASES, listMod2, List.length_map]
    exact a2
  have w1 : Wang2016.FREQS.length = 40 := by
    simp [Wang2016.FREQS, reshapeTFlat]
  have w2 : Wang2016.PHASES.length = 40 := by
    simp [Wang2016.PHASES, listMod2, reshapeTFlat]
  have ev1 : Wang2016.EVENTS.length = 40 := by
    simp [Wang2016.EVENTS]
  have ev2 : BETA.EVENTS.length = 40 := by
    simp [BETA.EVENTS]
  exact ⟨by rw [w1, w2], by rw [w1, ev1], ev1,
    by rw [b1, b2], by rw [b1, ev2], ev2⟩

/-- C9: for both datasets, path resolution is idempotent with respect to
extraction: if the decompressed subject .mat file is already in the cache
directory, `data_path` extracts nothing, leaves the filesystem unchanged and
returns the same destination list; consequently a second call after any
successful first call is a no-op returning the same paths. -/
theorem data_path_idempotent_spec (s : Nat) (fs : List String) :
    (Wang2016.matFile s ∈ fs → s ∈ Wang2016.subjects →
        Wang2016.dataPath fs s = .ok ⟨[Wang2016.matFile s], fs, false⟩)
    ∧ (∀ fs0 out, Wang2016.dataPath fs0 s = .ok out →
        Wang2016.dataPath out.fs s = .ok ⟨out.dests, out.fs, false⟩)
    ∧ (BETA.matFile s ∈ fs → s ∈ BETA.subjects →
        BETA.dataPath fs s = .ok ⟨[BETA.matFile s], fs, false⟩)
    ∧ (∀ fs0 out, BETA.dataPath fs0 s = .ok out →
        BETA.dataPath out.fs s = .ok ⟨out.dests, out.fs, false⟩) := by
  have hmemB : s ∈ BETA.subjects → BETA.matFile s ∈ BETA.extractedFiles s :=
    fun h => (beta_decade_bounds s h).2.2
  refine ⟨fun hf hmem => by simp [Wang2016.dataPath, hmem, hf], ?_, 
    fun hf hmem => by simp [BETA.dataPath, hmem, hf], ?_⟩
  · intro fs0 out hout
    by_cases hmem : s ∈ Wang2016.subjects
    · rw [Wang2016.dataPath] at hout
      rw [if_pos hmem] at hout
      rw [Wang2016.dataPath, if_pos hmem]
      by_cases hf : Wang2016.matFile s ∈ fs0
      · rw [if_pos hf] at hout
        cases hout
        simp [hf]
      · rw [if_neg hf] at hout
        cases hout
        have : Wang2016.matFile s ∈ fs0 ++ Wang2016.extractedFiles s := by
          simp [Wang2016.extractedFiles]
        simp [this]
    · rw [Wang2016.dataPath, if_neg hmem] at hout
      exact Except.noConfusion hout
  · intro fs0 out hout
    by_cases hmem : s ∈ BETA.subjects
    · rw [BETA.dataPath] at hout
      rw [if_pos hmem] at hout
      rw [BETA.dataPath, if_pos hmem]
      by_cases hf : BETA.matFile s ∈ fs0
      · rw [if_pos hf] at hout
        cases hout
        simp [hf]
      · rw [if_neg hf] at hout
        cases hout
        have : BETA.matFile s ∈ fs0 ++ BETA.extractedFiles s :=
          List.mem_append_right fs0 (hmemB hmem)
        simp [this]
    · rw [BETA.dataPath, if_neg hmem] at hout
      exact Except.noConfusion hout

/-- Witness for C9 at subject 7: with the subject file already cached both
resolvers are no-ops, and the second BETA call after a first call from an
empty cache (which extracted the whole decade) is a no-op as well. -/
theorem data_path_idempotent_spec_witness :
    Wang2016.dataPath ["S7.mat"] 7 = .ok ⟨["S7.mat"], ["S7.mat"], false⟩
    ∧ BETA.dataPath ["S7.mat"] 7 = .ok ⟨["S7.mat"], ["S7.mat"], false⟩
    ∧ BETA.dataPath ["S1.mat", "S2.mat", "S3.mat", "S4.mat", "S5.mat",
          "S6.mat", "S7.mat", "S8.mat", "S9.mat", "S10.mat"] 7 =
        .ok ⟨["S7.mat"],
          ["S1.mat", "S2.mat", "S3.mat", "S4.mat", "S5.mat",
           "S6.mat", "S7.mat", "S8.mat", "S9.mat", "S10.mat"], false⟩ :=
  ⟨(data_path_idempotent_spec 7 ["S7.mat"]).1 (by decide) (by decide),
   (data_path_idempotent_spec 7 ["S7.mat"]).2.2.1 (by decide) (by decide),
   (data_path_idempotent_spec 7 []).2.2.2 []
     ⟨["S7.mat"],
      ["S1.mat", "S2.mat", "S3.mat", "S4.mat", "S5.mat",
       "S6.mat", "S7.mat", "S8.mat", "S9.mat", "S10.mat"], true⟩
     rfl⟩

/-- C10: for every valid subject of either dataset the loader result has the
single session key session_0, and run keys run_0 through run_(B-1) in block
order, where B is the block-axis length of the source tensor — the fourth
on-disk axis for Wang2016 and the third on-disk axis for BETA. -/
theorem session_run_keys_spec (s : Nat) (fs : List String)
    (w bta : Tensor4 ℚ) :
    (s ∈ Wang2016.subjects → Wang2016.loadSubjectKeys fs w s =
        .ok (["session_0"], (List.range w.d3).map fun i => "run_" ++ toString i))
    ∧ (s ∈ BETA.subjects → BETA.loadSubjectKeys fs bta s =
        .ok (["session_0"], (List.range bta.d2).map fun i => "run_" ++ toString i)) := by
  constructor
  · intro hs
    simp only [Wang2016.loadSubjectKeys, Wang2016.dataPath, if_pos hs]
    split <;> rfl
  · intro hs
    simp only [BETA.loadSubjectKeys, BETA.dataPath, if_pos hs]
    split <;> rfl

/-- Witness for C10 at subject 3 with the concrete sample tensors. -/
theorem session_run_keys_spec_witness :
    (3 ∈ Wang2016.subjects ∧ 3 ∈ BETA.subjects)
    ∧ (Wang2016.loadSubjectKeys [] wangSample 3 =
        .ok (["session_0"],
          (List.range wangSample.d3).map fun i => "run_" ++ toString i))
    ∧ (BETA.loadSubjectKeys [] betaSample 3 =
        .ok (["session_0"],
          (List.range betaSample.d2).map fun i => "run_" ++ toString i)) :=
  ⟨⟨by decide, by decide⟩,
   (session_run_keys_spec 3 [] wangSample betaSample).1 (by decide),
   (session_run_keys_spec 3 [] wangSample betaSample).2 (by decide)⟩

end Tsinghua
